import Mathlib

/-!
Verification of the RAG Q&A backend (FastAPI + retrieval service).

Shallow embedding of the backend's core pure logic:
* `retrieve.py`: `search` validation/truncation, `_retry_with_backoff`;
* `agent.py`: `search_book_content` tool wrapper, `build_agent`,
  `extract_and_validate_citations`, `create_selected_text_citation`,
  `determine_confidence`, `get_fallback_answer`, `run_agent_streamed`;
* `app.py`: the `/chat` response-assembly logic and the admission-control
  counter (`acquire_request_slot` / `release_request_slot`).

Python strings are modelled as `List Char` (`PyStr`); Python floats are
modelled as rationals `ℚ`; Python dict-based tool results are modelled as a
structure whose fields carry the `.get(key, default)` values; network calls
are abstracted as explicit parameters (oracles) so that the surrounding
control flow is embedded faithfully.
-/

/-- A Python string, modelled as its list of characters. -/
abbrev PyStr := List Char

set_option maxRecDepth 16384

/-- Python `str.strip()` whitespace class (ASCII part; the embedding models
the whitespace characters relevant to the corpus). -/
def isPySpace (c : Char) : Bool :=
  c = ' ' || c = '\t' || c = '\n' || c = '\r' || c = '\x0b' || c = '\x0c'

/-- Python `str.strip()`: drop leading and trailing whitespace. -/
def pyStrip (s : PyStr) : PyStr :=
  ((s.dropWhile isPySpace).reverse.dropWhile isPySpace).reverse

/-- Python `str.lower()` (ASCII case folding suffices for the classified
substrings `"connection"`, `"timeout"`, `"429"`, `"503"`, `"502"`). -/
def pyLower (s : PyStr) : PyStr := s.map Char.toLower

/-- Python `needle in haystack` on strings (contiguous substring test). -/
def isSubstring (pat : PyStr) : PyStr → Bool
  | [] => pat.isEmpty
  | c :: t => pat.isPrefixOf (c :: t) || isSubstring pat t

/-- Constant from `agent.py`: `HIGH_CONFIDENCE_THRESHOLD = 0.5`. -/
def HIGH_CONFIDENCE_THRESHOLD : ℚ := 1/2

/-- Constant from `agent.py`: `LOW_CONFIDENCE_THRESHOLD = 0.3`. -/
def LOW_CONFIDENCE_THRESHOLD : ℚ := 3/10

/-- Constant from `agent.py`: `MAX_RETRIEVAL_RESULTS = 10`. -/
def MAX_RETRIEVAL_RESULTS : Int := 10

/-- Constant from `retrieve.py`: `MAX_QUERY_CHARACTERS = 32000`. -/
def MAX_QUERY_CHARACTERS : Nat := 32000

/-- Constant from `retrieve.py`: `MAX_RETRIES = 3`. -/
def MAX_RETRIES : Nat := 3

/-- Constant from `retrieve.py`: `BASE_DELAY_SECONDS = 1.0`. -/
def BASE_DELAY_SECONDS : ℚ := 1

/-- Constant from `retrieve.py`: `MAX_DELAY_SECONDS = 10.0`. -/
def MAX_DELAY_SECONDS : ℚ := 10

/-- Constant from `retrieve.py`: `BACKOFF_MULTIPLIER = 2.0`. -/
def BACKOFF_MULTIPLIER : ℚ := 2

/-- Constant from `app.py`: `MAX_CONCURRENT_REQUESTS = 10`. -/
def MAX_CONCURRENT_REQUESTS : Nat := 10

/-- Embeds the `models/response.py` dataclass `SearchResult`; also the shape of the
tool-result dicts flowing through `agent.py` (which are built from exactly
these fields in `search_book_content`).  The Python accesses
`r.get("field", default)` are modelled as total fields holding the
defaulted values. -/
structure SearchResult where
  similarity_score : ℚ
  chunk_text : PyStr
  source_url : PyStr
  title : PyStr
  sectionName : PyStr
  chunk_position : Int
deriving DecidableEq, Repr

/-- Tool-result dicts (`agent.py`) carry the same fields as `SearchResult`. -/
abbrev ToolResult := SearchResult

/-- Response mode strings used by `agent.py` / `app.py`. -/
inductive Mode
  | full
  | no_results
  | selected_text
  | retrieval_only
deriving DecidableEq, Repr

/-- Maximum used by `agent.py` `determine_confidence`: maximum of `similarity_score` over a
non-empty list of tool results (Python `max(...)`; the `[]` case is
unreachable in the source, guarded by `if not tool_results`). -/
def maxScore : List ToolResult → ℚ
  | [] => 0
  | r :: rs => rs.foldl (fun m x => max m x.similarity_score) r.similarity_score

/-- Embeds `agent.py` `determine_confidence(tool_results) -> (low_confidence, mode)`. -/
def determine_confidence (tool_results : List ToolResult) : Bool × Mode :=
  if tool_results.isEmpty then (false, Mode.no_results)
  else
    let max_score := maxScore tool_results
    if HIGH_CONFIDENCE_THRESHOLD ≤ max_score then (false, Mode.full)
    else if LOW_CONFIDENCE_THRESHOLD ≤ max_score then (true, Mode.full)
    else (true, Mode.no_results)

/-- The literal `"..."` appended to truncated snippets. -/
def ellipsis : PyStr := ['.', '.', '.']

/-- The snippet rule shared verbatim by `extract_and_validate_citations`
(agent.py lines 342-355) and `create_selected_text_citation` (lines
374-382): `snippet = text[:200].strip()`, append `"..."` when
`len(text) > 200`, then the hard cap `snippet[:200]`. -/
def makeSnippet (text : PyStr) : PyStr :=
  let snippet := pyStrip (text.take 200)
  let snippet := if 200 < text.length then snippet ++ ellipsis else snippet
  snippet.take 200

/-- Embeds the `models/response.py` pydantic model `SourceCitation` (the `section`
field is named `sectionName` because `section` is a Lean keyword). -/
structure SourceCitation where
  source_url : PyStr
  title : PyStr
  sectionName : PyStr
  chunk_position : Int
  similarity_score : ℚ
  snippet : PyStr
deriving DecidableEq, Repr

/-- Embeds the `models/response.py` pydantic model `SelectedTextCitation`. -/
structure SelectedTextCitation where
  source_type : PyStr
  selection_length : Nat
  snippet : PyStr
  relevance_note : PyStr
deriving DecidableEq, Repr

/-- Deduplication key used by `extract_and_validate_citations`:
`(result.get("source_url", ""), result.get("chunk_position", 0))`. -/
def citKey (r : ToolResult) : PyStr × Int := (r.source_url, r.chunk_position)

/-- The same key read off a constructed citation. -/
def citationKey (c : SourceCitation) : PyStr × Int := (c.source_url, c.chunk_position)

/-- The `SourceCitation` literal built inside the loop of
`extract_and_validate_citations` for one tool result. -/
def citationOf (r : ToolResult) : SourceCitation :=
  { source_url := r.source_url
    title := r.title
    sectionName := r.sectionName
    chunk_position := r.chunk_position
    similarity_score := r.similarity_score
    snippet := makeSnippet r.chunk_text }

/-- The loop of `extract_and_validate_citations`: iterate over tool results
carrying the `seen` set of keys (modelled as a list). -/
def extractCitationsAux : List (PyStr × Int) → List ToolResult → List SourceCitation
  | _, [] => []
  | seen, r :: rs =>
    if citKey r ∈ seen then extractCitationsAux seen rs
    else citationOf r :: extractCitationsAux (citKey r :: seen) rs

/-- Embeds `agent.py` `extract_and_validate_citations(agent_output, tool_results)`.
The `agent_output` argument is unused in the Python body and is omitted. -/
def extract_and_validate_citations (tool_results : List ToolResult) : List SourceCitation :=
  if tool_results.isEmpty then [] else extractCitationsAux [] tool_results

/-- The default `relevance_note` argument of `create_selected_text_citation`
(also passed explicitly at both call sites in `app.py` / `agent.py`). -/
def default_relevance_note : PyStr := "Answer derived from provided selection".toList

/-- Embeds `agent.py` `create_selected_text_citation(selected_text, relevance_note)`. -/
def create_selected_text_citation (selected_text : PyStr) (relevance_note : PyStr) :
    SelectedTextCitation :=
  { source_type := "selected_text".toList
    selection_length := selected_text.length
    snippet := makeSnippet selected_text
    relevance_note := relevance_note }

/-- Python truthiness of an `Optional[str]`: `None` and `""` are falsy. -/
def truthyStr : Option PyStr → Bool
  | none => false
  | some s => !s.isEmpty

/-- Branch structure of `agent.py` `get_fallback_answer`.  The message
strings are abstracted to their branch (the error-with-results branch is
built by joining a Python `set` of section labels, whose iteration order is
unspecified); the payload records the distinct sections of the first three
results that the message names. -/
inductive FallbackMsg
  | sections_found (sections : List PyStr)
  | unable_to_search
  | out_of_scope
deriving DecidableEq, Repr

/-- The distinct section labels of the first three tool results
(`set()` built from `tool_results[:3]` in `get_fallback_answer`). -/
def sectionsOfFirstThree (tool_results : List ToolResult) : List PyStr :=
  ((tool_results.take 3).map SearchResult.sectionName).dedup

/-- Embeds `agent.py` `get_fallback_answer(tool_results, error)`; `None` result
means no fallback needed. -/
def get_fallback_answer (tool_results : List ToolResult) (error : Option PyStr) :
    Option FallbackMsg :=
  if truthyStr error then
    if tool_results.isEmpty then some FallbackMsg.unable_to_search
    else some (FallbackMsg.sections_found (sectionsOfFirstThree tool_results))
  else if tool_results.isEmpty then some FallbackMsg.out_of_scope
  else none

/-- The dict returned by `agent.py` `run_agent` (and consumed by the
`/chat` handler): `answer`, `tool_results`, `error`. -/
structure AgentResult where
  answer : Option PyStr
  tool_results : List ToolResult
  error : Option PyStr
deriving DecidableEq, Repr

/-- A member of the `sources` list of a `ChatResponse`
(`List[Union[SourceCitation, SelectedTextCitation]]`). -/
inductive Citation
  | source (c : SourceCitation)
  | selected (c : SelectedTextCitation)
deriving DecidableEq, Repr

/-- The response fields assembled by the `/chat` handler that the claims
are about (`ResponseMetadata` fields plus `sources`, `fallback_message`,
`answer`). -/
structure ChatOutcome where
  mode : Mode
  low_confidence : Bool
  retrieval_count : Nat
  sources : List Citation
  fallback_message : Option FallbackMsg
  answer : Option PyStr
deriving DecidableEq, Repr

/-- The pure response-assembly logic of the `/chat` handler
(`app.py` lines 461-507): mode/confidence/citation selection from the
agent result, and the fallback override of `mode` when the generation step
errored.  Upstream request validation and persistence are out of scope of
this function (they either reject the request before any response is built
or are logged and swallowed). -/
def chatCore (selected_text : Option PyStr) (ar : AgentResult) : ChatOutcome :=
  if truthyStr selected_text then
    { mode := Mode.selected_text
      low_confidence := false
      retrieval_count := 0
      sources := [Citation.selected
        (create_selected_text_citation (selected_text.getD []) default_relevance_note)]
      fallback_message :=
        if truthyStr ar.error then get_fallback_answer ar.tool_results ar.error else none
      answer := ar.answer }
  else
    let lcMode := determine_confidence ar.tool_results
    if truthyStr ar.error then
      { mode := if ar.tool_results.isEmpty then Mode.no_results else Mode.retrieval_only
        low_confidence := lcMode.1
        retrieval_count := ar.tool_results.length
        sources := (extract_and_validate_citations ar.tool_results).map Citation.source
        fallback_message := get_fallback_answer ar.tool_results ar.error
        answer := ar.answer }
    else
      { mode := lcMode.2
        low_confidence := lcMode.1
        retrieval_count := ar.tool_results.length
        sources := (extract_and_validate_citations ar.tool_results).map Citation.source
        fallback_message := none
        answer := ar.answer }

/-- The single tool registered on the agent in full mode. -/
inductive AgentTool
  | search_book_content
deriving DecidableEq, Repr

/-- Shape of the agent instructions built by `build_agent`: either the base
instructions alone, or base plus the selected-text block holding the
selection truncated to 32,000 characters. -/
inductive AgentInstructions
  | base
  | base_with_selected (truncated_selection : PyStr)
deriving DecidableEq, Repr

/-- The `Agent` configuration produced by `agent.py` `build_agent`. -/
structure AgentConfig where
  name : PyStr
  instructions : AgentInstructions
  tools : List AgentTool
deriving DecidableEq, Repr

/-- Embeds `agent.py` `build_agent(selected_text, conversation_history)`: the
`if selected_text:` truthiness test selects instructions and tool list
(`conversation_history` is unused for this choice). -/
def build_agent (selected_text : Option PyStr) : AgentConfig :=
  if truthyStr selected_text then
    { name := "BookAssistant".toList
      instructions := AgentInstructions.base_with_selected ((selected_text.getD []).take 32000)
      tools := [] }
  else
    { name := "BookAssistant".toList
      instructions := AgentInstructions.base
      tools := [AgentTool.search_book_content] }

/-- The two `ValueError` raise sites of `retrieve.py` `search`, classified
per the spec's error taxonomy: the empty-query rejection is `InvalidQuery`,
the limit/threshold rejections are `InvalidParameter`. -/
inductive SearchError
  | invalid_query
  | invalid_parameter
deriving DecidableEq, Repr

/-- Non-fatal warnings accumulated by `retrieve.py` `search`. -/
inductive SearchWarning
  | query_truncated (original_length truncated_to : Nat)
  | missing_fields (fields : List PyStr)
deriving DecidableEq, Repr

/-- The validation/truncation prefix of `retrieve.py` `search`
(lines 437-461): reject empty-after-strip queries, reject `limit` outside
`[1, 20]` and `score_threshold` outside `[0.0, 1.0]`, then truncate
overlong queries to `MAX_QUERY_CHARACTERS` with a warning.  Returns the
query text actually sent onward together with the warnings so far. -/
def search_validate (query_text : PyStr) (limit : Int) (score_threshold : ℚ) :
    Except SearchError (PyStr × List SearchWarning) :=
  if (pyStrip query_text).isEmpty then Except.error SearchError.invalid_query
  else
    let query_text := pyStrip query_text
    if ¬(1 ≤ limit ∧ limit ≤ 20) then Except.error SearchError.invalid_parameter
    else if ¬(0 ≤ score_threshold ∧ score_threshold ≤ 1) then
      Except.error SearchError.invalid_parameter
    else if MAX_QUERY_CHARACTERS < query_text.length then
      Except.ok (query_text.take MAX_QUERY_CHARACTERS,
        [SearchWarning.query_truncated query_text.length MAX_QUERY_CHARACTERS])
    else Except.ok (query_text, [])

/-- A Python exception value as seen by the retry helper:
whether it is an `asyncio.TimeoutError` (caught by type), and its
`str(e)` message (classified by substring). -/
structure PyExn where
  is_asyncio_timeout : Bool
  msg : PyStr
deriving DecidableEq, Repr

/-- Embeds from `retrieve.py` `_retry_with_backoff` the transient-message test
`any(["connection" in m, "timeout" in m, "429" in m, "503" in m, "502" in m])`
over the lowercased `str(e)`. -/
def is_transient_message (msg : PyStr) : Bool :=
  let m := pyLower msg
  isSubstring "connection".toList m || isSubstring "timeout".toList m ||
    isSubstring "429".toList m || isSubstring "503".toList m ||
    isSubstring "502".toList m

/-- An exception is retried iff it is an `asyncio.TimeoutError` (first
`except` arm, always retried) or its message is classified transient. -/
def retryable (e : PyExn) : Bool := e.is_asyncio_timeout || is_transient_message e.msg

/-- Result of `_retry_with_backoff`: success, a non-transient error
propagated unwrapped, or a fresh `TimeoutError` / `ConnectionError` raised
after exhausting retries. -/
inductive RetryOutcome (α : Type)
  | ok (v : α)
  | raised (e : PyExn)
  | timeout_exhausted
  | unavailable_exhausted
deriving DecidableEq, Repr

/-- Observable trace of one `_retry_with_backoff` run: its outcome, how
many attempts were executed, and the sequence of sleep delays. -/
structure RetryTrace (α : Type) where
  outcome : RetryOutcome α
  attempts_made : Nat
  sleeps : List ℚ
deriving DecidableEq, Repr

/-- The `for attempt in range(max_retries)` loop of `_retry_with_backoff`,
with `remaining` the attempts left (loop fuel), `attempt` the 0-based
index, `delay` the current backoff delay, `last` the last exception, and
`sleeps` the delays slept so far.  A sleep and the delay update
`delay = min(delay * multiplier, max_delay)` happen only when
`attempt < max_retries - 1`, i.e. when further attempts remain. -/
def retryGo {α : Type} (attempts : Nat → Except PyExn α) (max_delay multiplier : ℚ) :
    Nat → Nat → ℚ → Option PyExn → List ℚ → RetryTrace α
  | 0, attempt, _, last, sleeps =>
    { outcome :=
        match last with
        | some e =>
          if e.is_asyncio_timeout then RetryOutcome.timeout_exhausted
          else RetryOutcome.unavailable_exhausted
        | none => RetryOutcome.unavailable_exhausted
      attempts_made := attempt
      sleeps := sleeps }
  | remaining + 1, attempt, delay, _, sleeps =>
    match attempts attempt with
    | Except.ok v =>
      { outcome := RetryOutcome.ok v, attempts_made := attempt + 1, sleeps := sleeps }
    | Except.error e =>
      if retryable e then
        if remaining = 0 then
          retryGo attempts max_delay multiplier remaining (attempt + 1) delay (some e) sleeps
        else
          retryGo attempts max_delay multiplier remaining (attempt + 1)
            (min (delay * multiplier) max_delay) (some e) (sleeps ++ [delay])
      else
        { outcome := RetryOutcome.raised e, attempts_made := attempt + 1, sleeps := sleeps }

/-- Embeds `retrieve.py` `_retry_with_backoff` at its default configuration
(`MAX_RETRIES` attempts, base delay `BASE_DELAY_SECONDS`, multiplier
`BACKOFF_MULTIPLIER`, cap `MAX_DELAY_SECONDS`), over an oracle giving the
outcome of each attempt of the wrapped coroutine. -/
def retry_with_backoff {α : Type} (attempts : Nat → Except PyExn α) : RetryTrace α :=
  retryGo attempts MAX_DELAY_SECONDS BACKOFF_MULTIPLIER MAX_RETRIES 0
    BASE_DELAY_SECONDS none []

/-- Embeds the `models/response.py` dataclass `SearchResponse` (timing omitted). -/
structure SearchResponse where
  results : List SearchResult
  total_results : Nat
  warnings : List SearchWarning
deriving DecidableEq, Repr

/-- The per-result missing-metadata warnings appended by `search`
(T022 block, lines 477-487): one warning per result missing any of
`source_url`, `title`, `chunk_text`. -/
def missingFieldWarnings (results : List SearchResult) : List SearchWarning :=
  results.filterMap fun r =>
    let fields :=
      (if r.source_url.isEmpty then ["source_url".toList] else []) ++
        (if r.title.isEmpty then ["title".toList] else []) ++
          (if r.chunk_text.isEmpty then ["chunk_text".toList] else [])
    if fields.isEmpty then none else some (SearchWarning.missing_fields fields)

/-- Embeds `retrieve.py` `search`, with the embedding+index round trip abstracted
as a `backend` oracle from the (validated, truncated) query text and
parameters to either an exception or the mapped result list.  Validation
errors and backend exceptions are kept distinct in the error type. -/
def search (backend : PyStr → Int → ℚ → Except PyExn (List SearchResult))
    (query_text : PyStr) (limit : Int) (score_threshold : ℚ) :
    Except (SearchError ⊕ PyExn) SearchResponse :=
  match search_validate query_text limit score_threshold with
  | Except.error e => Except.error (Sum.inl e)
  | Except.ok (q, warnings) =>
    match backend q limit score_threshold with
    | Except.error e => Except.error (Sum.inr e)
    | Except.ok results =>
      Except.ok
        { results := results
          total_results := results.length
          warnings := warnings ++ missingFieldWarnings results }

/-- The JSON payload returned by the `search_book_content` tool
(`agent.py` lines 181-194): result list, total, optional `error` field,
and the human-readable `message`. -/
structure ToolPayload where
  results : List SearchResult
  total_results : Nat
  error : Option PyStr
  message : PyStr
deriving DecidableEq, Repr

/-- Embeds `limit = max(1, min(limit, MAX_RETRIEVAL_RESULTS))` in
`search_book_content`. -/
def clampToolLimit (limit : Int) : Int := max 1 (min limit MAX_RETRIEVAL_RESULTS)

/-- Embeds `score_threshold = max(0.0, min(score_threshold, 1.0))` in
`search_book_content`. -/
def clampToolThreshold (t : ℚ) : ℚ := max 0 (min t 1)

/-- Decimal rendering of a count, for the `"Found N relevant passages"`
message. -/
def natToPyStr (n : Nat) : PyStr := (toString n).toList

/-- Embeds `agent.py` `search_book_content`: clamp `limit` and `score_threshold`,
call `search` (abstracted as `searchFn`), and return a success payload, or
an error payload if `search` raised — the tool itself never raises (it is
a total function of the search outcome). -/
def search_book_content (searchFn : PyStr → Int → ℚ → Except PyExn SearchResponse)
    (query : PyStr) (limit : Int) (score_threshold : ℚ) : ToolPayload :=
  let limit := clampToolLimit limit
  let score_threshold := clampToolThreshold score_threshold
  match searchFn query limit score_threshold with
  | Except.ok response =>
    { results := response.results
      total_results := response.total_results
      error := none
      message :=
        if response.results.isEmpty then "No relevant passages found".toList
        else "Found ".toList ++ natToPyStr response.total_results ++
          " relevant passages".toList }
  | Except.error e =>
    { results := []
      total_results := 0
      error := some e.msg
      message := "Search failed: ".toList ++ e.msg }

/-- One event of the underlying SDK stream consumed by
`run_agent_streamed`, abstracted to what the generator inspects: a raw
text delta, a tool-call output item (`none` = `json.loads` failed;
`some none` = parsed without a `"results"` key; `some (some rs)` = parsed
with results `rs`), or any other event (ignored). -/
inductive StreamItem
  | raw_delta (text : PyStr)
  | tool_output (parsed : Option (Option (List SearchResult)))
  | other
deriving DecidableEq, Repr

/-- The events yielded by `run_agent_streamed`. -/
inductive StreamEvent
  | delta (content : PyStr)
  | tool_call (output : Option (List SearchResult))
  | sources (data : List Citation)
  | done (answer : PyStr) (tool_results : List SearchResult)
  | error (message : PyStr)
deriving DecidableEq, Repr

/-- Generator state while iterating the SDK stream: events yielded so far,
accumulated `tool_results`, accumulated `full_answer`. -/
structure StreamAcc where
  events : List StreamEvent
  tool_results : List SearchResult
  full_answer : PyStr
deriving DecidableEq, Repr

/-- One iteration of the `async for` loop of `run_agent_streamed`
(lines 517-538): non-empty deltas are yielded and accumulated; parsed tool
outputs extend `tool_results` (when a `"results"` key exists) and yield a
`tool_call` event; unparsable outputs and other events yield nothing. -/
def streamStep (acc : StreamAcc) : StreamItem → StreamAcc
  | StreamItem.raw_delta t =>
    if t.isEmpty then acc
    else
      { events := acc.events ++ [StreamEvent.delta t]
        tool_results := acc.tool_results
        full_answer := acc.full_answer ++ t }
  | StreamItem.tool_output none => acc
  | StreamItem.tool_output (some parsed) =>
    { events := acc.events ++ [StreamEvent.tool_call parsed]
      tool_results :=
        match parsed with
        | some rs => acc.tool_results ++ rs
        | none => acc.tool_results
      full_answer := acc.full_answer }
  | StreamItem.other => acc

/-- Folding the loop over the whole SDK stream. -/
def processItems (items : List StreamItem) : StreamAcc :=
  items.foldl streamStep { events := [], tool_results := [], full_answer := [] }

/-- Python `final_output or full_answer`: the left string unless it is
`None` or empty. -/
def pyOrStr (a : Option PyStr) (b : PyStr) : PyStr :=
  match a with
  | some s => if s.isEmpty then b else s
  | none => b

/-- How one streamed run of the SDK terminates: the stream is consumed to
the end and `final_output` is read, or an exception escapes after a prefix
of the stream was consumed (all code past the loop up to the `sources`
yield — `Runner.run_streamed`, iteration itself, `final_output` access —
sits inside the one `try`). -/
inductive StreamRun
  | completes (items : List StreamItem) (final_output : Option PyStr)
  | raises (items : List StreamItem) (e : PyExn)
deriving DecidableEq, Repr

/-- Embeds `agent.py` `run_agent_streamed` (lines 471-565), as the full event
sequence the generator yields when driven to exhaustion: loop events, then
a `sources` event (from tool results, else from `selected_text` when
truthy), then `done`; or the already-yielded loop events followed by a
single `error` event when an exception escapes the `try`. -/
def run_agent_streamed (selected_text : Option PyStr) (run : StreamRun) :
    List StreamEvent :=
  match run with
  | StreamRun.raises items e => (processItems items).events ++ [StreamEvent.error e.msg]
  | StreamRun.completes items final_output =>
    let acc := processItems items
    let sourcesEvents :=
      if ¬acc.tool_results.isEmpty then
        [StreamEvent.sources
          ((extract_and_validate_citations acc.tool_results).map Citation.source)]
      else if truthyStr selected_text then
        [StreamEvent.sources
          [Citation.selected
            (create_selected_text_citation (selected_text.getD []) default_relevance_note)]]
      else []
    acc.events ++ sourcesEvents ++
      [StreamEvent.done (pyOrStr final_output acc.full_answer) acc.tool_results]

/-- Embeds `app.py` `acquire_request_slot`: non-blocking check-and-increment of
the in-flight counter under `_rate_lock` (the lock makes the pair atomic;
each call is one atomic transition).  Returns the new counter value and
whether the slot was granted. -/
def acquire_request_slot (current : Nat) : Nat × Bool :=
  if MAX_CONCURRENT_REQUESTS ≤ current then (current, false) else (current + 1, true)

/-- Embeds `app.py` `release_request_slot`: `max(0, current - 1)` under the same
lock (natural-number subtraction models the clamp at zero). -/
def release_request_slot (current : Nat) : Nat := current - 1

/-- An atomic counter transition (lock-protected section). -/
inductive SlotOp
  | acq
  | rel
deriving DecidableEq, Repr

/-- Effect of one atomic slot operation on the counter. -/
def slotStep (n : Nat) : SlotOp → Nat
  | SlotOp.acq => (acquire_request_slot n).1
  | SlotOp.rel => release_request_slot n

/-- Counter value after an arbitrary interleaving of atomic slot
operations from concurrent requests. -/
def runSlotOps (n : Nat) (ops : List SlotOp) : Nat := ops.foldl slotStep n

/-- Whether the request body (everything inside the `try` of `/chat`)
completes or raises. -/
inductive BodyOutcome
  | completes
  | raises
deriving DecidableEq, Repr

/-- The slot lifecycle of one `/chat` request (`app.py` lines 373-380 and
539-540): acquire, then — only if admitted — run the body and release in
the `finally` clause on both the normal and the exceptional exit path.
Returns the counter after the request's own operations and whether it was
admitted. -/
def chatSlotTrace (outcome : BodyOutcome) (n : Nat) : Nat × Bool :=
  match acquire_request_slot n with
  | (n1, false) => (n1, false)
  | (n1, true) =>
    match outcome with
    | BodyOutcome.completes => (release_request_slot n1, true)
    | BodyOutcome.raises => (release_request_slot n1, true)

/-- Events a stream may emit before its `sources`/terminal tail. -/
def isBodyEvent : StreamEvent → Bool
  | StreamEvent.delta _ => true
  | StreamEvent.tool_call _ => true
  | _ => false

/-- Terminal events of a stream. -/
def isTerminalEvent : StreamEvent → Bool
  | StreamEvent.done _ _ => true
  | StreamEvent.error _ => true
  | _ => false

/- ===================== Theorems ===================== -/

/-- Helper: `citationOf` preserves the deduplication key. -/
theorem citationKey_citationOf (r : ToolResult) : citationKey (citationOf r) = citKey r := rfl

/-- Helper: `extract_and_validate_citations` equals its loop started with an
empty `seen` set (the `if not tool_results` guard is redundant). -/
theorem extract_eq_aux (tr : List ToolResult) :
    extract_and_validate_citations tr = extractCitationsAux [] tr := by
  cases tr <;> simp [extract_and_validate_citations, extractCitationsAux]

/-- Helper: evaluation of `determine_confidence` on a non-empty list. -/
theorem determine_confidence_eval (tr : List ToolResult) (h : tr.isEmpty = false) :
    determine_confidence tr =
      if HIGH_CONFIDENCE_THRESHOLD ≤ maxScore tr then (false, Mode.full)
      else if LOW_CONFIDENCE_THRESHOLD ≤ maxScore tr then (true, Mode.full)
      else (true, Mode.no_results) := by
  unfold determine_confidence
  rw [h]
  rfl

/-- Helper: `determine_confidence` only ever reports mode `full` or
`no_results`. -/
theorem determine_confidence_snd (tr : List ToolResult) :
    (determine_confidence tr).2 = Mode.full ∨ (determine_confidence tr).2 = Mode.no_results := by
  by_cases h : tr.isEmpty
  · rw [determine_confidence, if_pos h]
    right; rfl
  · rw [determine_confidence_eval tr (by simpa using h)]
    by_cases h1 : HIGH_CONFIDENCE_THRESHOLD ≤ maxScore tr
    · rw [if_pos h1]; left; rfl
    · rw [if_neg h1]
      by_cases h2 : LOW_CONFIDENCE_THRESHOLD ≤ maxScore tr
      · rw [if_pos h2]; left; rfl
      · rw [if_neg h2]; right; rfl

/-- Claim C2: `determine_confidence` is a strict three-way partition of
similarity scores with inclusive lower bounds: empty tool results give
`(false, no_results)`; maximum score at least 0.5 gives `(false, full)`;
maximum score in `[0.3, 0.5)` gives `(true, full)`; maximum score below
0.3 gives `(true, no_results)`. -/
theorem determine_confidence_partition :
    HIGH_CONFIDENCE_THRESHOLD = 1/2 ∧ LOW_CONFIDENCE_THRESHOLD = 3/10 ∧
    determine_confidence [] = (false, Mode.no_results) ∧
    ∀ tr : List ToolResult, tr ≠ [] →
      ((1/2 : ℚ) ≤ maxScore tr → determine_confidence tr = (false, Mode.full)) ∧
      ((3/10 : ℚ) ≤ maxScore tr → maxScore tr < 1/2 →
        determine_confidence tr = (true, Mode.full)) ∧
      (maxScore tr < 3/10 → determine_confidence tr = (true, Mode.no_results)) := by
  refine ⟨rfl, rfl, rfl, ?_⟩
  intro tr htr
  have hne : tr.isEmpty = false := by
    cases tr with
    | nil => exact absurd rfl htr
    | cons a l => rfl
  rw [determine_confidence_eval tr hne]
  refine ⟨?_, ?_, ?_⟩
  · intro h
    rw [if_pos (show HIGH_CONFIDENCE_THRESHOLD ≤ maxScore tr from h)]
  · intro h1 h2
    rw [if_neg (show ¬ HIGH_CONFIDENCE_THRESHOLD ≤ maxScore tr from not_le.mpr h2),
      if_pos (show LOW_CONFIDENCE_THRESHOLD ≤ maxScore tr from h1)]
  · intro h
    have hhigh : ¬ HIGH_CONFIDENCE_THRESHOLD ≤ maxScore tr := by
      rw [HIGH_CONFIDENCE_THRESHOLD]
      refine not_le.mpr (lt_trans h ?_)
      norm_num
    rw [if_neg hhigh,
      if_neg (show ¬ LOW_CONFIDENCE_THRESHOLD ≤ maxScore tr from not_le.mpr h)]

/-- Witness for C2: concrete scores 0.6, 0.4 and 0.1 land in the three
bands exactly as in the spec's examples. -/
theorem determine_confidence_partition_witness :
    determine_confidence [⟨3/5, [], [], [], [], 0⟩] = (false, Mode.full) ∧
    determine_confidence [⟨2/5, [], [], [], [], 0⟩] = (true, Mode.full) ∧
    determine_confidence [⟨1/10, [], [], [], [], 0⟩] = (true, Mode.no_results) :=
  ⟨(determine_confidence_partition.2.2.2 _ (by simp)).1 (by norm_num [maxScore]),
   ((determine_confidence_partition.2.2.2 _ (by simp)).2.1
     (by norm_num [maxScore]) (by norm_num [maxScore])),
   ((determine_confidence_partition.2.2.2 _ (by simp)).2.2 (by norm_num [maxScore]))⟩

/-- Claim C9: the admission counter never exceeds 10 under any
interleaving of atomic acquire/release transitions; acquisition at the
bound is rejected with the counter unchanged (the 11th concurrent request
is refused); and an admitted request releases its slot exactly once on
both the normal and the exceptional exit path, restoring the counter. -/
theorem admission_control_spec :
    MAX_CONCURRENT_REQUESTS = 10 ∧
    (∀ (n : Nat) (ops : List SlotOp),
      n ≤ MAX_CONCURRENT_REQUESTS → runSlotOps n ops ≤ MAX_CONCURRENT_REQUESTS) ∧
    acquire_request_slot 10 = (10, false) ∧
    (∀ b, chatSlotTrace b 10 = (10, false)) ∧
    (∀ (n : Nat) (b : BodyOutcome), n < 10 → chatSlotTrace b n = (n, true)) := by
  refine ⟨rfl, ?_, rfl, ?_, ?_⟩
  · intro n ops hn
    induction ops generalizing n with
    | nil => exact hn
    | cons op ops ih =>
      rw [runSlotOps, List.foldl_cons]
      refine ih (slotStep n op) ?_
      cases op with
      | acq =>
        simp only [slotStep, acquire_request_slot]
        split
        · exact hn
        · next h => exact Nat.lt_of_not_le (by simpa [MAX_CONCURRENT_REQUESTS] using h)
      | rel => exact Nat.le_trans (Nat.sub_le n 1) hn
  · intro b
    cases b <;> rfl
  · intro n b hn
    have hacq : acquire_request_slot n = (n + 1, true) := by
      simp [acquire_request_slot, MAX_CONCURRENT_REQUESTS, Nat.not_le.mpr hn]
    cases b <;> simp [chatSlotTrace, hacq, release_request_slot]

/-- Witness for C9: a request admitted at counter 3 that raises mid-body
still restores the counter to 3, and an arbitrary interleaving never
exceeds the bound. -/
theorem admission_control_witness :
    chatSlotTrace BodyOutcome.raises 3 = (3, true) ∧
    runSlotOps 0 [SlotOp.acq, SlotOp.acq, SlotOp.rel, SlotOp.acq] ≤ 10 :=
  ⟨admission_control_spec.2.2.2.2 3 BodyOutcome.raises (by decide),
   admission_control_spec.2.1 0 _ (by decide)⟩

/-- Helper: every citation the loop produces has a key outside `seen` and
is built from the first tool result carrying its key. -/
theorem extractAux_mem {tr : List ToolResult} {seen : List (PyStr × Int)}
    {c : SourceCitation} (hc : c ∈ extractCitationsAux seen tr) :
    citationKey c ∉ seen ∧
    ∃ r, tr.find? (fun x => decide (citKey x = citationKey c)) = some r ∧
      c = citationOf r := by
  induction tr generalizing seen with
  | nil => simp [extractCitationsAux] at hc
  | cons r rs ih =>
    by_cases hs : citKey r ∈ seen
    · have hc' : c ∈ extractCitationsAux seen rs := by
        simpa [extractCitationsAux, hs] using hc
      obtain ⟨hnot, r', hfind, hceq⟩ := ih hc'
      have hne : ¬ citKey r = citationKey c := fun h => hnot (h ▸ hs)
      refine ⟨hnot, r', ?_, hceq⟩
      rw [List.find?_cons_of_neg _ (by simpa using hne)]
      exact hfind
    · have hc' : c = citationOf r ∨ c ∈ extractCitationsAux (citKey r :: seen) rs := by
        simpa [extractCitationsAux, hs] using hc
      rcases hc' with rfl | hc'
      · refine ⟨by simpa [citationKey_citationOf] using hs, r, ?_, rfl⟩
        rw [List.find?_cons_of_pos _ (by simp [citationKey_citationOf])]
      · obtain ⟨hnot, r', hfind, hceq⟩ := ih hc'
        have hnot_seen : citationKey c ∉ seen := fun h => hnot (List.mem_cons_of_mem _ h)
        have hne : ¬ citKey r = citationKey c := fun h => hnot (h ▸ List.mem_cons_self _ _)
        refine ⟨hnot_seen, r', ?_, hceq⟩
        rw [List.find?_cons_of_neg _ (by simpa using hne)]
        exact hfind

/-- Helper: the keys of the citations the loop produces are pairwise
distinct. -/
theorem extractAux_keys_nodup (tr : List ToolResult) :
    ∀ seen, ((extractCitationsAux seen tr).map citationKey).Nodup := by
  induction tr with
  | nil => intro seen; simp [extractCitationsAux]
  | cons r rs ih =>
    intro seen
    by_cases hs : citKey r ∈ seen
    · simpa [extractCitationsAux, hs] using ih seen
    · rw [extractCitationsAux, if_neg hs, List.map_cons]
      refine List.nodup_cons.mpr ⟨?_, ih _⟩
      intro hmem
      obtain ⟨c, hc, hkey⟩ := List.mem_map.mp hmem
      have hnot := (extractAux_mem hc).1
      exact hnot (by rw [hkey, citationKey_citationOf]; exact List.mem_cons_self _ _)

/-- Helper: every key occurring among the tool results and not yet seen
occurs among the produced citation keys. -/
theorem extractAux_coverage (tr : List ToolResult) :
    ∀ seen k, k ∈ tr.map citKey → k ∉ seen →
      k ∈ (extractCitationsAux seen tr).map citationKey := by
  induction tr with
  | nil => intro seen k hk _; simp at hk
  | cons r rs ih =>
    intro seen k hk hns
    rw [List.map_cons] at hk
    rcases List.mem_cons.mp hk with hk1 | hk2
    · by_cases hs : citKey r ∈ seen
      · exact absurd (hk1 ▸ hs) hns
      · rw [extractCitationsAux, if_neg hs, List.map_cons, citationKey_citationOf]
        exact hk1 ▸ List.mem_cons_self _ _
    · by_cases hs : citKey r ∈ seen
      · rw [extractCitationsAux, if_pos hs]
        exact ih seen k hk2 hns
      · rw [extractCitationsAux, if_neg hs, List.map_cons, citationKey_citationOf]
        by_cases hkr : k = citKey r
        · exact hkr ▸ List.mem_cons_self _ _
        · refine List.mem_cons_of_mem _ (ih _ k hk2 ?_)
          simp [hkr, hns]

/-- Helper: the produced citation keys form a sublist of the tool-result
keys (insertion order preserved). -/
theorem extractAux_keys_sublist (tr : List ToolResult) :
    ∀ seen, ((extractCitationsAux seen tr).map citationKey).Sublist (tr.map citKey) := by
  induction tr with
  | nil => intro seen; simp [extractCitationsAux]
  | cons r rs ih =>
    intro seen
    by_cases hs : citKey r ∈ seen
    · rw [extractCitationsAux, if_pos hs, List.map_cons]
      exact (ih seen).cons _
    · rw [extractCitationsAux, if_neg hs, List.map_cons, List.map_cons,
        citationKey_citationOf]
      exact (ih _).cons₂ _

/-- Claim C1: `extract_and_validate_citations` returns exactly one
citation per distinct `(source_url, chunk_position)` pair of the tool
results — keys are pairwise distinct, key sets coincide, insertion order
is preserved, and each citation is built from the first tool result
carrying its key — and every citation's key appears among the supplied
tool results (no fabrication); the empty list yields no citations. -/
theorem extract_citations_dedup_validated :
    extract_and_validate_citations [] = [] ∧
    ∀ tr : List ToolResult,
      ((extract_and_validate_citations tr).map citationKey).Nodup ∧
      (∀ k, k ∈ (extract_and_validate_citations tr).map citationKey ↔ k ∈ tr.map citKey) ∧
      ((extract_and_validate_citations tr).map citationKey).Sublist (tr.map citKey) ∧
      (∀ c ∈ extract_and_validate_citations tr,
        (∃ r ∈ tr, citKey r = citationKey c) ∧
        ∃ r, tr.find? (fun x => decide (citKey x = citationKey c)) = some r ∧
          c = citationOf r) := by
  refine ⟨rfl, ?_⟩
  intro tr
  rw [extract_eq_aux]
  refine ⟨extractAux_keys_nodup tr [], ?_, extractAux_keys_sublist tr [], ?_⟩
  · intro k
    constructor
    · intro hk
      exact (extractAux_keys_sublist tr []).subset hk
    · intro hk
      exact extractAux_coverage tr [] k hk (by simp)
  · intro c hc
    obtain ⟨_, r, hfind, hceq⟩ := extractAux_mem hc
    refine ⟨⟨r, List.mem_of_find?_eq_some hfind, ?_⟩, r, hfind, hceq⟩
    have hp : decide (citKey r = citationKey c) = true := by
      simpa using List.find?_some hfind
    exact of_decide_eq_true hp

/-- Witness for C1: a duplicate-key list of tool results; the citation
returned for the duplicated key is built from its first occurrence. -/
theorem extract_citations_dedup_validated_witness :
    (∃ r ∈ ([⟨1, ['t'], ['u'], [], [], 0⟩, ⟨0, ['s'], ['v'], [], [], 1⟩,
        ⟨0, ['w'], ['u'], [], [], 0⟩] : List ToolResult),
      citKey r = citationKey (citationOf ⟨1, ['t'], ['u'], [], [], 0⟩)) ∧
    ∃ r, ([⟨1, ['t'], ['u'], [], [], 0⟩, ⟨0, ['s'], ['v'], [], [], 1⟩,
        ⟨0, ['w'], ['u'], [], [], 0⟩] : List ToolResult).find?
        (fun x => decide (citKey x = citationKey (citationOf ⟨1, ['t'], ['u'], [], [], 0⟩)))
        = some r ∧
      citationOf ⟨1, ['t'], ['u'], [], [], 0⟩ = citationOf r :=
  (extract_citations_dedup_validated.2 _).2.2.2
    (citationOf ⟨1, ['t'], ['u'], [], [], 0⟩) (by decide)

/-- Helper: stripping never lengthens a string. -/
theorem pyStrip_length_le (s : PyStr) : (pyStrip s).length ≤ s.length := by
  rw [pyStrip]
  calc ((s.dropWhile isPySpace).reverse.dropWhile isPySpace).reverse.length
      = ((s.dropWhile isPySpace).reverse.dropWhile isPySpace).length := by
        rw [List.length_reverse]
    _ ≤ (s.dropWhile isPySpace).reverse.length :=
        (List.dropWhile_sublist _).length_le
    _ = (s.dropWhile isPySpace).length := by rw [List.length_reverse]
    _ ≤ s.length := (List.dropWhile_sublist _).length_le

/-- Helper: the snippet rule always produces at most 200 characters. -/
theorem makeSnippet_length_le (text : PyStr) : (makeSnippet text).length ≤ 200 := by
  rw [makeSnippet]
  simp only [List.length_take]
  omega

/-- Helper: when the source exceeds 200 characters and the trimmed prefix
is short enough that the appended ellipsis survives the final cap, the
snippet ends with the ellipsis. -/
theorem makeSnippet_ellipsis (text : PyStr) (h200 : 200 < text.length)
    (hstrip : (pyStrip (text.take 200)).length ≤ 197) :
    ellipsis.IsSuffix (makeSnippet text) := by
  rw [makeSnippet]
  simp only [if_pos h200]
  have hlen : (pyStrip (text.take 200) ++ ellipsis).length ≤ 200 := by
    rw [List.length_append]
    simp only [ellipsis, List.length_cons, List.length_nil]
    omega
  rw [List.take_of_length_le hlen]
  exact List.suffix_append _ _

/-- Claim C3 (amended): every snippet produced by citation construction is
`text[:200].strip()` with `"..."` appended when the source exceeded 200
characters and then hard-capped at 200 characters, so `len(snippet) ≤ 200`
always holds; when the source exceeds 200 characters the snippet ends with
the ellipsis provided the trimmed 200-character prefix is at most 197
characters (otherwise the cap cuts the ellipsis off). -/
theorem snippet_rule_spec :
    (∀ text : PyStr, (makeSnippet text).length ≤ 200) ∧
    (∀ text : PyStr, 200 < text.length → (pyStrip (text.take 200)).length ≤ 197 →
      ellipsis.IsSuffix (makeSnippet text)) ∧
    (∀ tr : List ToolResult, ∀ c ∈ extract_and_validate_citations tr,
      (∃ r ∈ tr, c.snippet = makeSnippet r.chunk_text) ∧ c.snippet.length ≤ 200) ∧
    (∀ st note : PyStr, (create_selected_text_citation st note).snippet = makeSnippet st ∧
      (create_selected_text_citation st note).snippet.length ≤ 200) := by
  refine ⟨makeSnippet_length_le, makeSnippet_ellipsis, ?_, ?_⟩
  · intro tr c hc
    rw [extract_eq_aux] at hc
    obtain ⟨_, r, hfind, hceq⟩ := extractAux_mem hc
    refine ⟨⟨r, List.mem_of_find?_eq_some hfind, by rw [hceq]; rfl⟩, ?_⟩
    rw [hceq]
    exact makeSnippet_length_le r.chunk_text
  · intro st note
    exact ⟨rfl, makeSnippet_length_le st⟩

/-- Counterexample for C3 as frozen: a 201-character selection with no
surrounding whitespace; the appended ellipsis is cut off by the final
`[:200]` cap, so the snippet does not end with an ellipsis marker even
though the source text exceeds 200 characters. -/
theorem snippet_rule_counterexample :
    200 < (List.replicate 201 'a').length ∧
    (create_selected_text_citation (List.replicate 201 'a') []).snippet =
      List.replicate 200 'a' ∧
    ¬ ellipsis.IsSuffix ((create_selected_text_citation (List.replicate 201 'a') []).snippet) := by
  refine ⟨by simp, by decide, by decide⟩

/-- Witness for C3 (amended): a 201-character text ending in whitespace;
the trimmed prefix has 197 characters, so the snippet does end with the
ellipsis, and its length is within the bound. -/
theorem snippet_rule_witness :
    (makeSnippet (List.replicate 197 'a' ++ List.replicate 4 ' ')).length ≤ 200 ∧
    ellipsis.IsSuffix (makeSnippet (List.replicate 197 'a' ++ List.replicate 4 ' ')) :=
  ⟨snippet_rule_spec.1 _,
   snippet_rule_spec.2.1 _ (by decide) (by decide)⟩

/-- Claim C4: whenever `selected_text` is supplied (non-empty — the
`ChatRequest` validator rejects empty or whitespace-only selections, and
the handler tests Python truthiness), the `/chat` response has
`retrieval_count = 0`, `mode = selected_text`, and exactly one
`SelectedTextCitation` as its sources, regardless of the agent result —
in particular regardless of whether the generation step errored. -/
theorem chat_selected_text_isolation :
    ∀ (st : PyStr) (ar : AgentResult), st ≠ [] →
      (chatCore (some st) ar).retrieval_count = 0 ∧
      (chatCore (some st) ar).mode = Mode.selected_text ∧
      (chatCore (some st) ar).sources =
        [Citation.selected (create_selected_text_citation st default_relevance_note)] := by
  intro st ar hst
  have ht : truthyStr (some st) = true := by
    cases st with
    | nil => exact absurd rfl hst
    | cons c t => rfl
  rw [chatCore, if_pos ht]
  exact ⟨rfl, rfl, rfl⟩

/-- Witness for C4: a concrete one-character selection together with an
errored agent result still yields selected-text metadata and the single
selection citation. -/
theorem chat_selected_text_isolation_witness :
    (chatCore (some ['x']) ⟨none, [], some ['e']⟩).retrieval_count = 0 ∧
    (chatCore (some ['x']) ⟨none, [], some ['e']⟩).mode = Mode.selected_text ∧
    (chatCore (some ['x']) ⟨none, [], some ['e']⟩).sources =
      [Citation.selected (create_selected_text_citation ['x'] default_relevance_note)] :=
  chat_selected_text_isolation ['x'] ⟨none, [], some ['e']⟩ (by decide)

/-- Claim C10: an empty-string `selected_text` is treated as absent by
truthiness, in both `build_agent` (retrieval tool stays enabled, same
configuration as passing no selection) and the `/chat` assembly (mode is
never `selected_text`, `retrieval_count` counts tool results, and no
`SelectedTextCitation` is produced). -/
theorem empty_selected_text_truthiness :
    (build_agent (some [])).tools = [AgentTool.search_book_content] ∧
    build_agent (some []) = build_agent none ∧
    (∀ st : PyStr, truthyStr (some st) = !st.isEmpty) ∧
    ∀ ar : AgentResult,
      (chatCore (some []) ar).mode ≠ Mode.selected_text ∧
      (chatCore (some []) ar).retrieval_count = ar.tool_results.length ∧
      ∀ c ∈ (chatCore (some []) ar).sources, ∀ sc, c ≠ Citation.selected sc := by
  refine ⟨rfl, rfl, fun st => rfl, ?_⟩
  intro ar
  have ht : truthyStr (some []) = false := rfl
  rw [chatCore, if_neg (by rw [ht]; exact Bool.false_ne_true)]
  by_cases he : truthyStr ar.error = true
  · rw [if_pos he]
    refine ⟨?_, rfl, ?_⟩
    · by_cases hemp : ar.tool_results.isEmpty <;> simp [hemp]
    · intro c hc sc
      obtain ⟨c0, _, rfl⟩ := List.mem_map.mp hc
      exact fun h => Citation.noConfusion h
  · rw [if_neg he]
    refine ⟨?_, rfl, ?_⟩
    · rcases determine_confidence_snd ar.tool_results with h | h <;> simp [h]
    · intro c hc sc
      obtain ⟨c0, _, rfl⟩ := List.mem_map.mp hc
      exact fun h => Citation.noConfusion h

/-- Witness for C10: a concrete agent result with one tool result; the
assembled response is in full mode with a source citation (never a
selection citation), and the configured agent keeps the search tool. -/
theorem empty_selected_text_truthiness_witness :
    (chatCore (some []) ⟨none, [⟨1, ['t'], ['u'], [], [], 0⟩], none⟩).mode ≠
      Mode.selected_text ∧
    Citation.source (citationOf ⟨1, ['t'], ['u'], [], [], 0⟩) ≠
      Citation.selected (create_selected_text_citation ['x'] []) :=
  ⟨(empty_selected_text_truthiness.2.2.2 ⟨none, [⟨1, ['t'], ['u'], [], [], 0⟩], none⟩).1,
   (empty_selected_text_truthiness.2.2.2 ⟨none, [⟨1, ['t'], ['u'], [], [], 0⟩], none⟩).2.2
     (Citation.source (citationOf ⟨1, ['t'], ['u'], [], [], 0⟩)) (by decide)
     (create_selected_text_citation ['x'] [])⟩

/-- Helper: a long valid query is accepted, truncated to the ceiling, with
a truncation warning. -/
theorem search_validate_long (q : PyStr) (l : Int) (t : ℚ)
    (hlen : MAX_QUERY_CHARACTERS < (pyStrip q).length)
    (h1 : 1 ≤ l) (h2 : l ≤ 20) (h3 : 0 ≤ t) (h4 : t ≤ 1) :
    search_validate q l t =
      Except.ok ((pyStrip q).take MAX_QUERY_CHARACTERS,
        [SearchWarning.query_truncated (pyStrip q).length MAX_QUERY_CHARACTERS]) := by
  have hne : (pyStrip q).isEmpty = false := by
    rw [List.isEmpty_eq_false_iff_exists_mem]
    cases hq : pyStrip q with
    | nil => rw [hq] at hlen; simp [MAX_QUERY_CHARACTERS] at hlen
    | cons a s => exact ⟨a, List.mem_cons_self _ _⟩
  rw [search_validate, if_neg (by rw [hne]; exact Bool.false_ne_true),
    if_neg (by push_neg; exact ⟨h1, h2⟩),
    if_neg (by push_neg; exact ⟨h3, h4⟩),
    if_pos hlen]

/-- Claim C5: `search` rejects a query that is empty after trimming with
the `InvalidQuery` error; rejects any limit outside `[1, 20]` and any
score threshold outside `[0, 1]` with the `InvalidParameter` error; and
accepts a query longer than 32,000 characters, truncating it to exactly
32,000 characters and appending a truncation warning to the response
instead of raising. -/
theorem search_validation_spec :
    MAX_QUERY_CHARACTERS = 32000 ∧
    (∀ (q : PyStr) (l : Int) (t : ℚ), (pyStrip q).isEmpty = true →
      search_validate q l t = Except.error SearchError.invalid_query) ∧
    (∀ (q : PyStr) (l : Int) (t : ℚ), (pyStrip q).isEmpty = false → (l < 1 ∨ 20 < l) →
      search_validate q l t = Except.error SearchError.invalid_parameter) ∧
    (∀ (q : PyStr) (l : Int) (t : ℚ), (pyStrip q).isEmpty = false → 1 ≤ l → l ≤ 20 →
      (t < 0 ∨ 1 < t) →
      search_validate q l t = Except.error SearchError.invalid_parameter) ∧
    (∀ (q : PyStr) (l : Int) (t : ℚ), MAX_QUERY_CHARACTERS < (pyStrip q).length →
      1 ≤ l → l ≤ 20 → 0 ≤ t → t ≤ 1 →
      search_validate q l t =
        Except.ok ((pyStrip q).take MAX_QUERY_CHARACTERS,
          [SearchWarning.query_truncated (pyStrip q).length MAX_QUERY_CHARACTERS]) ∧
      ((pyStrip q).take MAX_QUERY_CHARACTERS).length = MAX_QUERY_CHARACTERS) ∧
    (∀ backend (q : PyStr) (l : Int) (t : ℚ) results,
      MAX_QUERY_CHARACTERS < (pyStrip q).length → 1 ≤ l → l ≤ 20 → 0 ≤ t → t ≤ 1 →
      backend ((pyStrip q).take MAX_QUERY_CHARACTERS) l t = Except.ok results →
      ∃ resp, search backend q l t = Except.ok resp ∧
        SearchWarning.query_truncated (pyStrip q).length MAX_QUERY_CHARACTERS ∈
          resp.warnings) := by
  refine ⟨rfl, ?_, ?_, ?_, ?_, ?_⟩
  · intro q l t hq
    rw [search_validate, if_pos hq]
  · intro q l t hq hl
    rw [search_validate, if_neg (by rw [hq]; exact Bool.false_ne_true),
      if_pos (by intro h; omega)]
  · intro q l t hq h1 h2 ht
    rw [search_validate, if_neg (by rw [hq]; exact Bool.false_ne_true),
      if_neg (by push_neg; exact ⟨h1, h2⟩),
      if_pos (by rintro ⟨ha, hb⟩; rcases ht with h | h <;> linarith)]
  · intro q l t hlen h1 h2 h3 h4
    refine ⟨search_validate_long q l t hlen h1 h2 h3 h4, ?_⟩
    rw [List.length_take]
    omega
  · intro backend q l t results hlen h1 h2 h3 h4 hb
    rw [search, search_validate_long q l t hlen h1 h2 h3 h4]
    dsimp only
    rw [hb]
    exact ⟨_, rfl, List.mem_append_left _ (List.mem_singleton.mpr rfl)⟩

/-- Witness for C5: `limit = 0` with a non-empty query is rejected as an
invalid parameter, and a whitespace-only query is rejected as an invalid
query. -/
theorem search_validation_witness :
    search_validate ['a'] 0 1 = Except.error SearchError.invalid_parameter ∧
    search_validate [' ', ' ', ' '] 5 1 = Except.error SearchError.invalid_query :=
  ⟨search_validation_spec.2.2.1 ['a'] 0 1 (by decide) (Or.inl (by decide)),
   search_validation_spec.2.1 [' ', ' ', ' '] 5 1 (by decide)⟩

/-- Claim C7: the `search_book_content` tool never raises across its
boundary: the limit it passes to the underlying `search` is clamped into
`[1, 10]`, any failure of the underlying search becomes an error payload
(empty results, zero total, `error` and `message` fields), and success
becomes a JSON payload of the passages plus a human-readable count
summary. -/
theorem tool_boundary_spec :
    (∀ l : Int, 1 ≤ clampToolLimit l ∧ clampToolLimit l ≤ 10) ∧
    (∀ searchFn (q : PyStr) (l : Int) (t : ℚ) (e : PyExn),
      searchFn q (clampToolLimit l) (clampToolThreshold t) = Except.error e →
      search_book_content searchFn q l t =
        { results := [], total_results := 0, error := some e.msg,
          message := "Search failed: ".toList ++ e.msg }) ∧
    (∀ searchFn (q : PyStr) (l : Int) (t : ℚ) (resp : SearchResponse),
      searchFn q (clampToolLimit l) (clampToolThreshold t) = Except.ok resp →
      search_book_content searchFn q l t =
        { results := resp.results, total_results := resp.total_results, error := none,
          message :=
            if resp.results.isEmpty then "No relevant passages found".toList
            else "Found ".toList ++ natToPyStr resp.total_results ++
              " relevant passages".toList }) := by
  refine ⟨?_, ?_, ?_⟩
  · intro l
    refine ⟨le_max_left _ _, ?_⟩
    rw [clampToolLimit, MAX_RETRIEVAL_RESULTS]
    omega
  · intro searchFn q l t e he
    rw [search_book_content]
    rw [he]
  · intro searchFn q l t resp hr
    rw [search_book_content]
    rw [hr]

/-- Witness for C7: an always-failing underlying search yields the error
payload for an out-of-range limit request. -/
theorem tool_boundary_witness :
    search_book_content (fun _ _ _ => Except.error ⟨false, ['b']⟩) ['q'] 99 1 =
      { results := [], total_results := 0, error := some ['b'],
        message := "Search failed: ".toList ++ ['b'] } :=
  tool_boundary_spec.2.1 (fun _ _ _ => Except.error ⟨false, ['b']⟩) ['q'] 99 1
    ⟨false, ['b']⟩ rfl

/-- Helper: every event yielded inside the streaming loop is a `delta` or
`tool_call` event. -/
theorem processItems_body (items : List StreamItem) :
    ∀ acc : StreamAcc, (∀ e ∈ acc.events, isBodyEvent e = true) →
      ∀ e ∈ (items.foldl streamStep acc).events, isBodyEvent e = true := by
  induction items with
  | nil => intro acc h; simpa using h
  | cons item rest ih =>
    intro acc h
    rw [List.foldl_cons]
    refine ih (streamStep acc item) ?_
    intro e he
    cases item with
    | raw_delta t =>
      by_cases ht : t.isEmpty
      · rw [streamStep, if_pos ht] at he
        exact h e he
      · rw [streamStep, if_neg ht] at he
        rcases List.mem_append.mp he with he' | he'
        · exact h e he'
        · rw [List.mem_singleton.mp he']
          rfl
    | tool_output p =>
      cases p with
      | none => exact h e he
      | some parsed =>
        rcases List.mem_append.mp he with he' | he'
        · exact h e he'
        · rw [List.mem_singleton.mp he']
          rfl
    | other => exact h e he

/-- Claim C8: every event sequence produced by `run_agent_streamed` is
finite and decomposes as zero or more `delta`/`tool_call` events, then at
most one `sources` event, then exactly one terminal `done` or `error`
event in final position — so nothing follows the terminal event and the
sequence never ends without one. -/
theorem stream_event_ordering :
    ∀ (selected_text : Option PyStr) (run : StreamRun),
      ∃ body srcs t,
        run_agent_streamed selected_text run = body ++ srcs ++ [t] ∧
        (∀ e ∈ body, isBodyEvent e = true) ∧
        (srcs = [] ∨ ∃ d, srcs = [StreamEvent.sources d]) ∧
        isTerminalEvent t = true := by
  intro st run
  cases run with
  | raises items e =>
    refine ⟨(processItems items).events, [], StreamEvent.error e.msg, ?_,
      processItems_body items _ (by simp), Or.inl rfl, rfl⟩
    rw [run_agent_streamed]
    simp
  | completes items fo =>
    refine ⟨(processItems items).events,
      if ¬(processItems items).tool_results.isEmpty then
        [StreamEvent.sources
          ((extract_and_validate_citations (processItems items).tool_results).map
            Citation.source)]
      else if truthyStr st then
        [StreamEvent.sources
          [Citation.selected
            (create_selected_text_citation (st.getD []) default_relevance_note)]]
      else [],
      StreamEvent.done (pyOrStr fo (processItems items).full_answer)
        (processItems items).tool_results,
      rfl, processItems_body items _ (by simp), ?_, rfl⟩
    by_cases h1 : (processItems items).tool_results.isEmpty
    · by_cases h2 : truthyStr st
      · rw [if_neg (by simpa using h1), if_pos h2]
        exact Or.inr ⟨_, rfl⟩
      · rw [if_neg (by simpa using h1), if_neg h2]
        exact Or.inl rfl
    · rw [if_pos h1]
      exact Or.inr ⟨_, rfl⟩

/-- Witness for C8: the empty completed stream with no selection yields
exactly the terminal `done` event. -/
theorem stream_event_ordering_witness :
    ∃ body srcs t,
      run_agent_streamed none (StreamRun.completes [] none) = body ++ srcs ++ [t] ∧
      (∀ e ∈ body, isBodyEvent e = true) ∧
      (srcs = [] ∨ ∃ d, srcs = [StreamEvent.sources d]) ∧
      isTerminalEvent t = true :=
  stream_event_ordering none (StreamRun.completes [] none)

/-- Helper: a successful attempt ends the retry loop at once. -/
theorem retryGoS_ok {α : Type} {A : Nat → Except PyExn α} {md m : ℚ} {rem att : Nat}
    {d : ℚ} {l : Option PyExn} {s : List ℚ} {v : α} (h : A att = Except.ok v) :
    retryGo A md m (rem + 1) att d l s =
      ⟨RetryOutcome.ok v, att + 1, s⟩ := by
  simp [retryGo, h]

/-- Helper: a non-retryable failure propagates at once, unwrapped. -/
theorem retryGoS_raise {α : Type} {A : Nat → Except PyExn α} {md m : ℚ} {rem att : Nat}
    {d : ℚ} {l : Option PyExn} {s : List ℚ} {e : PyExn} (h : A att = Except.error e)
    (hr : retryable e = false) :
    retryGo A md m (rem + 1) att d l s =
      ⟨RetryOutcome.raised e, att + 1, s⟩ := by
  simp [retryGo, h, hr]

/-- Helper: a retryable failure with further attempts remaining sleeps for
the current delay and doubles it (capped). -/
theorem retryGoS_retry_more {α : Type} {A : Nat → Except PyExn α} {md m : ℚ}
    {k att : Nat} {d : ℚ} {l : Option PyExn} {s : List ℚ} {e : PyExn}
    (h : A att = Except.error e) (hr : retryable e = true) :
    retryGo A md m (k + 1 + 1) att d l s =
      retryGo A md m (k + 1) (att + 1) (min (d * m) md) (some e) (s ++ [d]) := by
  simp [retryGo, h, hr]

/-- Helper: a retryable failure on the final attempt exits the loop
without a further sleep. -/
theorem retryGoS_retry_last {α : Type} {A : Nat → Except PyExn α} {md m : ℚ}
    {att : Nat} {d : ℚ} {l : Option PyExn} {s : List ℚ} {e : PyExn}
    (h : A att = Except.error e) (hr : retryable e = true) :
    retryGo A md m (0 + 1) att d l s = retryGo A md m 0 (att + 1) d (some e) s := by
  simp [retryGo, h, hr]

/-- Helper: after exhaustion, the last exception decides between the fresh
timeout and the fresh connection-failure error. -/
theorem retryGo_zero_some {α : Type} {A : Nat → Except PyExn α} {md m : ℚ}
    {att : Nat} {d : ℚ} {s : List ℚ} {e : PyExn} :
    retryGo A md m 0 att d (some e) s =
      ⟨if e.is_asyncio_timeout then RetryOutcome.timeout_exhausted
        else RetryOutcome.unavailable_exhausted, att, s⟩ := rfl

/-- Helper: exhaustive enumeration of the seven possible runs of
`_retry_with_backoff` at its default configuration of three attempts. -/
theorem retry_enum {α : Type} (A : Nat → Except PyExn α) :
    (∃ v, A 0 = Except.ok v ∧ retry_with_backoff A = ⟨RetryOutcome.ok v, 1, []⟩) ∨
    (∃ e, A 0 = Except.error e ∧ retryable e = false ∧
      retry_with_backoff A = ⟨RetryOutcome.raised e, 1, []⟩) ∨
    (∃ e v, A 0 = Except.error e ∧ retryable e = true ∧ A 1 = Except.ok v ∧
      retry_with_backoff A = ⟨RetryOutcome.ok v, 2, [1]⟩) ∨
    (∃ e e1, A 0 = Except.error e ∧ retryable e = true ∧ A 1 = Except.error e1 ∧
      retryable e1 = false ∧
      retry_with_backoff A = ⟨RetryOutcome.raised e1, 2, [1]⟩) ∨
    (∃ e e1 v, A 0 = Except.error e ∧ retryable e = true ∧ A 1 = Except.error e1 ∧
      retryable e1 = true ∧ A 2 = Except.ok v ∧
      retry_with_backoff A = ⟨RetryOutcome.ok v, 3, [1, 2]⟩) ∨
    (∃ e e1 e2, A 0 = Except.error e ∧ retryable e = true ∧ A 1 = Except.error e1 ∧
      retryable e1 = true ∧ A 2 = Except.error e2 ∧ retryable e2 = false ∧
      retry_with_backoff A = ⟨RetryOutcome.raised e2, 3, [1, 2]⟩) ∨
    (∃ e e1 e2, A 0 = Except.error e ∧ retryable e = true ∧ A 1 = Except.error e1 ∧
      retryable e1 = true ∧ A 2 = Except.error e2 ∧ retryable e2 = true ∧
      retry_with_backoff A =
        ⟨if e2.is_asyncio_timeout then RetryOutcome.timeout_exhausted
          else RetryOutcome.unavailable_exhausted, 3, [1, 2]⟩) := by
  have key : retry_with_backoff A = retryGo A 10 2 (0 + 1 + 1 + 1) 0 1 none [] := by
    rw [retry_with_backoff, MAX_RETRIES, MAX_DELAY_SECONDS, BACKOFF_MULTIPLIER,
      BASE_DELAY_SECONDS]
  cases h0 : A 0 with
  | ok v =>
    refine Or.inl ⟨v, rfl, ?_⟩
    rw [key, retryGoS_ok h0]
  | error e0 =>
    by_cases r0 : retryable e0 = true
    · have step1 : retry_with_backoff A =
          retryGo A 10 2 (0 + 1 + 1) 1 (min (1 * 2) 10) (some e0) [1] := by
        rw [key, retryGoS_retry_more h0 r0]
        norm_num
      cases h1 : A 1 with
      | ok v =>
        refine Or.inr (Or.inr (Or.inl ⟨e0, v, rfl, r0, rfl, ?_⟩))
        rw [step1, retryGoS_ok h1]
      | error e1 =>
        by_cases r1 : retryable e1 = true
        · have step2 : retry_with_backoff A =
              retryGo A 10 2 (0 + 1) 2 (min (min (1 * 2) 10 * 2) 10) (some e1)
                [1, min (1 * 2) 10] := by
            rw [step1, retryGoS_retry_more h1 r1]
            norm_num
          cases h2 : A 2 with
          | ok v =>
            refine Or.inr (Or.inr (Or.inr (Or.inr (Or.inl
              ⟨e0, e1, v, rfl, r0, rfl, r1, rfl, ?_⟩))))
            rw [step2, retryGoS_ok h2]
            try norm_num [min_def]
          | error e2 =>
            by_cases r2 : retryable e2 = true
            · refine Or.inr (Or.inr (Or.inr (Or.inr (Or.inr (Or.inr
                ⟨e0, e1, e2, rfl, r0, rfl, r1, rfl, r2, ?_⟩)))))
              rw [step2, retryGoS_retry_last h2 r2, retryGo_zero_some]
              try norm_num [min_def]
            · refine Or.inr (Or.inr (Or.inr (Or.inr (Or.inr (Or.inl
                ⟨e0, e1, e2, rfl, r0, rfl, r1, rfl, by simpa using r2, ?_⟩)))))
              rw [step2, retryGoS_raise h2 (by simpa using r2)]
              try norm_num [min_def]
        · refine Or.inr (Or.inr (Or.inr (Or.inl
            ⟨e0, e1, rfl, r0, rfl, by simpa using r1, ?_⟩)))
          rw [step1, retryGoS_raise h1 (by simpa using r1)]
          try norm_num [min_def]
    · refine Or.inr (Or.inl ⟨e0, rfl, by simpa using r0, ?_⟩)
      rw [key, retryGoS_raise h0 (by simpa using r0)]

/-- Claim C6: the retry helper makes at most 3 attempts with exponential
backoff (base delay 1s, multiplier 2, cap 10s — the sleep sequence of a
full run is `[1, 2]`); only classified-transient errors are ever retried
(a propagated error is always non-transient and is the unwrapped original
exception from some attempt); a non-transient first failure propagates
immediately with no sleeps; and exhausted retries surface as the distinct
timeout kind when the last error was a timeout and as the unavailable
(connection-failure) kind otherwise — never as the original error. -/
theorem retry_backoff_spec :
    MAX_RETRIES = 3 ∧ BASE_DELAY_SECONDS = 1 ∧ BACKOFF_MULTIPLIER = 2 ∧
    MAX_DELAY_SECONDS = 10 ∧
    ∀ (α : Type) (A : Nat → Except PyExn α),
      (retry_with_backoff A).attempts_made ≤ 3 ∧
      ((retry_with_backoff A).sleeps = [] ∨ (retry_with_backoff A).sleeps = [(1 : ℚ)] ∨
        (retry_with_backoff A).sleeps = [(1 : ℚ), 2]) ∧
      (∀ e, (retry_with_backoff A).outcome = RetryOutcome.raised e →
        retryable e = false ∧ ∃ k, k < 3 ∧ A k = Except.error e) ∧
      (∀ e, A 0 = Except.error e → retryable e = false →
        retry_with_backoff A = ⟨RetryOutcome.raised e, 1, []⟩) ∧
      (∀ e0 e1 e2, A 0 = Except.error e0 → A 1 = Except.error e1 →
        A 2 = Except.error e2 → retryable e0 = true → retryable e1 = true →
        retryable e2 = true →
        retry_with_backoff A =
          ⟨if e2.is_asyncio_timeout then RetryOutcome.timeout_exhausted
            else RetryOutcome.unavailable_exhausted, 3, [1, 2]⟩) := by
  refine ⟨rfl, rfl, rfl, rfl, ?_⟩
  intro α A
  rcases retry_enum A with ⟨v, h0, hr⟩ | ⟨e, h0, hre, hr⟩ | ⟨e, v, h0, hre, h1, hr⟩ |
    ⟨e, e1, h0, hre, h1, hre1, hr⟩ | ⟨e, e1, v, h0, hre, h1, hre1, h2, hr⟩ |
    ⟨e, e1, e2, h0, hre, h1, hre1, h2, hre2, hr⟩ |
    ⟨e, e1, e2, h0, hre, h1, hre1, h2, hre2, hr⟩
  · refine ⟨by rw [hr]; norm_num, Or.inl (by rw [hr]), ?_, ?_, ?_⟩
    · intro e' he
      rw [hr] at he
      exact absurd he (by simp)
    · intro e' h0' _
      rw [h0] at h0'
      exact Except.noConfusion h0'
    · intro a b c ha _ _ _ _ _
      rw [h0] at ha
      exact Except.noConfusion ha
  · refine ⟨by rw [hr]; norm_num, Or.inl (by rw [hr]), ?_, ?_, ?_⟩
    · intro e' he
      rw [hr] at he
      simp only [RetryOutcome.raised.injEq] at he
      subst he
      exact ⟨hre, 0, by norm_num, h0⟩
    · intro e' h0' _
      rw [h0] at h0'
      injection h0' with hh
      subst hh
      exact hr
    · intro a b c ha _ _ hra _ _
      rw [h0] at ha
      injection ha with hh
      subst hh
      rw [hre] at hra
      exact Bool.noConfusion hra
  · refine ⟨by rw [hr]; norm_num, Or.inr (Or.inl (by rw [hr])), ?_, ?_, ?_⟩
    · intro e' he
      rw [hr] at he
      exact absurd he (by simp)
    · intro e' h0' hre'
      rw [h0] at h0'
      injection h0' with hh
      subst hh
      rw [hre] at hre'
      exact Bool.noConfusion hre'
    · intro a b c _ hb _ _ _ _
      rw [h1] at hb
      exact Except.noConfusion hb
  · refine ⟨by rw [hr]; norm_num, Or.inr (Or.inl (by rw [hr])), ?_, ?_, ?_⟩
    · intro e' he
      rw [hr] at he
      simp only [RetryOutcome.raised.injEq] at he
      subst he
      exact ⟨hre1, 1, by norm_num, h1⟩
    · intro e' h0' hre'
      rw [h0] at h0'
      injection h0' with hh
      subst hh
      rw [hre] at hre'
      exact Bool.noConfusion hre'
    · intro a b c _ hb _ _ hrb _
      rw [h1] at hb
      injection hb with hh
      subst hh
      rw [hre1] at hrb
      exact Bool.noConfusion hrb
  · refine ⟨by rw [hr], Or.inr (Or.inr (by rw [hr])), ?_, ?_, ?_⟩
    · intro e' he
      rw [hr] at he
      exact absurd he (by simp)
    · intro e' h0' hre'
      rw [h0] at h0'
      injection h0' with hh
      subst hh
      rw [hre] at hre'
      exact Bool.noConfusion hre'
    · intro a b c _ _ hc _ _ _
      rw [h2] at hc
      exact Except.noConfusion hc
  · refine ⟨by rw [hr], Or.inr (Or.inr (by rw [hr])), ?_, ?_, ?_⟩
    · intro e' he
      rw [hr] at he
      simp only [RetryOutcome.raised.injEq] at he
      subst he
      exact ⟨hre2, 2, by norm_num, h2⟩
    · intro e' h0' hre'
      rw [h0] at h0'
      injection h0' with hh
      subst hh
      rw [hre] at hre'
      exact Bool.noConfusion hre'
    · intro a b c _ _ hc _ _ hrc
      rw [h2] at hc
      injection hc with hh
      subst hh
      rw [hre2] at hrc
      exact Bool.noConfusion hrc
  · refine ⟨by rw [hr], Or.inr (Or.inr (by rw [hr])), ?_, ?_, ?_⟩
    · intro e' he
      rw [hr] at he
      by_cases ht : e2.is_asyncio_timeout = true <;> simp [ht] at he
    · intro e' h0' hre'
      rw [h0] at h0'
      injection h0' with hh
      subst hh
      rw [hre] at hre'
      exact Bool.noConfusion hre'
    · intro a b c _ _ hc _ _ _
      rw [h2] at hc
      injection hc with hh
      subst hh
      exact hr

/-- Witness for C6: an attempt oracle that always fails with an
`asyncio.TimeoutError` exhausts all three attempts, sleeps 1s then 2s, and
surfaces the fresh timeout kind. -/
theorem retry_backoff_spec_witness :
    retry_with_backoff (fun _ => (Except.error ⟨true, []⟩ : Except PyExn Nat)) =
      ⟨RetryOutcome.timeout_exhausted, 3, [1, 2]⟩ := by
  have h := (retry_backoff_spec.2.2.2.2 Nat (fun _ => Except.error ⟨true, []⟩)).2.2.2.2
    ⟨true, []⟩ ⟨true, []⟩ ⟨true, []⟩ rfl rfl rfl rfl rfl rfl
  simpa using h
